import Mathlib

/-!
Verification of the layered rule-resolution engine described by the design
specification of this repository.  The repository ships five ESLint flat-config
layer declarations in src/eslint.config.mts; the resolution machinery itself
(pattern matcher, resolver, configuration store) lives in the external linting
framework, so it is modelled here from the specification, while the five layer
declarations are translated directly from the source file.
-/

set_option autoImplicit false

namespace EslintLayers

universe u

/-- Option values appearing in layer declarations: strings, booleans, numbers,
nested option objects, and values imported from packages outside this
repository.  Imported values are opaque to the engine, so they are modelled by
the name of their source expression. -/
inductive OptVal where
  | str : String → OptVal
  | bool : Bool → OptVal
  | num : Int → OptVal
  | obj : List (String × OptVal) → OptVal
  | imported : String → OptVal

/-- A rule setting: a severity token together with an options payload.
The recognized severity tokens are "off", "warn" and "error"; a setting with a
non-empty options list and severity "error" is the error-with-options form of
the data model. -/
structure RuleSetting where
  severity : String
  options : List OptVal

/-- A configuration layer: a diagnostic name, an optional selector (files), an
optional exclusion list (ignores), a languageOptions blob merged by shallow
key overwrite, and a mapping from rule names to rule settings. -/
structure Layer where
  name : String
  files : Option (List String)
  ignores : Option (List String)
  languageOptions : List (String × OptVal)
  rules : List (String × RuleSetting)

/-- The output artifact of resolution for a non-ignored path. -/
structure ResolvedConfig where
  languageOptions : List (String × OptVal)
  rules : List (String × RuleSetting)

/-- Resolution outcome: either the distinct Ignored status or a resolved
configuration. -/
inductive Resolution where
  | ignored : Resolution
  | resolved : ResolvedConfig → Resolution

/-- Whether a character list contains two consecutive stars, the globstar of
the pattern syntax. -/
def hasGlobstar : List Char → Bool
  | '*' :: '*' :: _ => true
  | _ :: rest => hasGlobstar rest
  | [] => false

/-- Drop one leading path separator from a pattern remainder; used for the
zero-segment case of a globstar. -/
def dropSlash : List Char → List Char
  | '/' :: p => p
  | p => p

/-- Modelled from the spec: glob matching on character lists (section 4.1 of
the design).  A single star matches any run of characters except the path
separator, a double star matches across separators (zero or more full
segments), and literal characters match exactly.  The fuel argument bounds the
recursion; it strictly exceeds the combined length of pattern and subject, and
every recursive call shrinks that combined length, so the fuel is never
exhausted on the intended calls. -/
def globMatchAux : Nat → List Char → List Char → Bool
  | 0, _, _ => false
  | _ + 1, [], s => s.isEmpty
  | fuel + 1, '*' :: '*' :: p, s =>
    globMatchAux fuel (dropSlash p) s ||
      (match s with
       | [] => false
       | _ :: s' => globMatchAux fuel ('*' :: '*' :: p) s')
  | fuel + 1, '*' :: p, s =>
    globMatchAux fuel p s ||
      (match s with
       | [] => false
       | c :: s' => (c != '/') && globMatchAux fuel ('*' :: p) s')
  | fuel + 1, c :: p, d :: s => (c == d) && globMatchAux fuel p s
  | _ + 1, _ :: _, [] => false

/-- Modelled from the spec: whether one glob pattern matches one normalized,
slash-separated path. -/
def patternMatches (pat path : String) : Bool :=
  globMatchAux (pat.data.length + path.data.length + 1) pat.data path.data

/-- Modelled from the spec: the Pattern Matcher contract, section 4.1 — true
iff some pattern of the set matches the path; an empty pattern set matches
nothing. -/
def matchesAny (path : String) (patterns : List String) : Bool :=
  patterns.any (fun pat => patternMatches pat path)

/-- First binding of a key in an association list. -/
def getKey? {α : Type u} (k : String) : List (String × α) → Option α
  | [] => none
  | (k', v) :: rest => if k' = k then some v else getKey? k rest

/-- Left-biased choice on options. -/
def optOr {α : Type u} : Option α → Option α → Option α
  | some v, _ => some v
  | none, b => b

/-- Modelled from the spec: shallow merge by per-key overwrite (section 4.2,
step 3b) — every key the update defines replaces any prior value for that
exact key; keys not mentioned by the update are untouched, so non-conflicting
keys from both sides survive. -/
def mergeMap {α : Type u} (base upd : List (String × α)) : List (String × α) :=
  upd ++ base.filter (fun kv => (getKey? kv.1 upd).isNone)

/-- Modelled from the spec: a designated ignore layer carries only an
exclusion list and no selector and no rules (section 3, IgnoreLayer). -/
def isIgnoreLayer (l : Layer) : Bool :=
  l.ignores.isSome && l.files.isNone && l.rules.isEmpty

/-- Modelled from the spec: a path is globally ignored when any exclusion
pattern of any designated ignore layer matches it (section 4.2, step 1). -/
def globallyIgnored (path : String) (layers : List Layer) : Bool :=
  layers.any (fun l => isIgnoreLayer l && matchesAny path (l.ignores.getD []))

/-- Modelled from the spec: applicability of a layer to a path (section 4.2,
step 3a) — applicable if the selector is absent or some selector pattern
matches, and the layer's own exclusion list does not match. -/
def applicable (path : String) (l : Layer) : Bool :=
  (match l.files with
   | none => true
   | some pats => matchesAny path pats) &&
  !(matchesAny path (l.ignores.getD []))

/-- Modelled from the spec: one fold step of the Resolver (section 4.2,
step 3) — ignore layers are skipped; an applicable layer shallow-merges its
languageOptions and merges its rules by per-key overwrite. -/
def applyLayer (path : String) (acc : ResolvedConfig) (l : Layer) : ResolvedConfig :=
  if isIgnoreLayer l then acc
  else if applicable path l then
    { languageOptions := mergeMap acc.languageOptions l.languageOptions
      rules := mergeMap acc.rules l.rules }
  else acc

/-- Modelled from the spec: the Resolver contract (section 4.2).  If any
designated ignore layer's exclusion patterns match the path, return the
Ignored status immediately with no further layer consulted; otherwise fold the
layers in declared order over an empty accumulator. -/
def resolve (path : String) (layers : List Layer) : Resolution :=
  if globallyIgnored path layers then Resolution.ignored
  else Resolution.resolved
    (layers.foldl (applyLayer path) { languageOptions := [], rules := [] })

/-- The recognized severity tokens of the data model (section 3). -/
def validSeverity (s : String) : Bool :=
  s == "off" || s == "warn" || s == "error"

/-- Validity of one layer declaration: recognized severity tokens and
non-empty pattern strings. -/
def layerValid (l : Layer) : Bool :=
  l.rules.all (fun kv => validSeverity kv.2.severity) &&
  (l.files.getD []).all (fun p => !p.isEmpty) &&
  (l.ignores.getD []).all (fun p => !p.isEmpty)

/-- Modelled from the spec: the Configuration Store load contract
(section 4.3) — validates that every severity token is recognized, that every
pattern string is non-empty, and that the sequence contains at most one
designated ignore layer; on success the loaded snapshot is the declared
sequence, on failure a descriptive Fatal error is raised. -/
def load (ls : List Layer) : Except String (List Layer) :=
  if (ls.all layerValid = true) ∧ ls.countP isIgnoreLayer ≤ 1 then Except.ok ls
  else Except.error "invalid layer declarations"

/-- Look up a rule name in a resolution outcome. -/
def getRule (r : Resolution) (k : String) : Option RuleSetting :=
  match r with
  | Resolution.ignored => none
  | Resolution.resolved c => getKey? k c.rules

/-- Look up a languageOptions key in a resolution outcome. -/
def getLangOption (r : Resolution) (k : String) : Option OptVal :=
  match r with
  | Resolution.ignored => none
  | Resolution.resolved c => getKey? k c.languageOptions

/-- Two resolution calls against one loaded snapshot, returning both results
together with the layer sequence the session ends with. -/
def resolveTwice (path : String) (layers : List Layer) :
    Resolution × Resolution × List Layer :=
  (resolve path layers, resolve path layers, layers)

/-- Layer 1, "base-javascript-config", src/eslint.config.mts lines 32-84.
No files entry, so the layer applies globally.  The object spread of
js.configs.recommended in the source literal is overwritten wholesale by the
later explicit languageOptions and rules keys of the same object literal, so
the loaded layer carries exactly the explicit fields written below. -/
def baseJavascriptConfig : Layer :=
  { name := "base-javascript-config"
    files := none
    ignores := none
    languageOptions :=
      [ ("ecmaVersion", OptVal.num 2022)
      , ("sourceType", OptVal.str "module")
      , ("globals", OptVal.imported "globals.node+globals.es2022") ]
    rules :=
      [ ("no-var", { severity := "error", options := [] })
      , ("prefer-const", { severity := "error", options := [] })
      , ("no-unused-vars",
          { severity := "error"
            options := [OptVal.obj
              [ ("argsIgnorePattern", OptVal.str "^_")
              , ("varsIgnorePattern", OptVal.str "^_") ]] })
      , ("semi", { severity := "error", options := [OptVal.str "always"] })
      , ("quotes",
          { severity := "error"
            options := [ OptVal.str "single"
                       , OptVal.obj [("avoidEscape", OptVal.bool true)] ] })
      , ("no-console", { severity := "warn", options := [] }) ]
  }

/-- The explicit rule entries of the "typescript-config" layer,
src/eslint.config.mts lines 135-169, in source order. -/
def typescriptExplicitRules : List (String × RuleSetting) :=
  [ ("no-unused-vars", { severity := "off", options := [] })
  , ("@typescript-eslint/no-unused-vars",
      { severity := "error"
        options := [OptVal.obj
          [ ("argsIgnorePattern", OptVal.str "^_")
          , ("varsIgnorePattern", OptVal.str "^_") ]] })
  , ("@typescript-eslint/explicit-function-return-type",
      { severity := "warn", options := [] })
  , ("@typescript-eslint/no-explicit-any",
      { severity := "error", options := [] })
  , ("@typescript-eslint/no-floating-promises",
      { severity := "error", options := [] })
  , ("@typescript-eslint/consistent-type-definitions",
      { severity := "error", options := [OptVal.str "interface"] })
  , ("@typescript-eslint/prefer-nullish-coalescing",
      { severity := "error", options := [] })
  , ("@typescript-eslint/no-unnecessary-condition",
      { severity := "warn", options := [] })
  , ("@typescript-eslint/no-unnecessary-boolean-literal-compare",
      { severity := "error", options := [] }) ]

/-- Layer 2, "typescript-config", src/eslint.config.mts lines 96-171.
The rules object spreads the recommended rule set of the external
typescript-eslint plugin before the explicit entries; that external artifact
is not part of this repository, so it is taken as a parameter and combined by
the same per-key overwrite the source object literal performs. -/
def typescriptConfig (tsRecommendedRules : List (String × RuleSetting)) : Layer :=
  { name := "typescript-config"
    files := some ["**/*.ts", "**/*.tsx", "**/*.mts", "**/*.cts"]
    ignores := none
    languageOptions :=
      [ ("parser", OptVal.imported "tsParser")
      , ("parserOptions", OptVal.obj
          [ ("project", OptVal.str "./tsconfig.json")
          , ("tsconfigRootDir", OptVal.imported "process.cwd()")
          , ("experimentalDecorators", OptVal.bool true)
          , ("emitDecoratorMetadata", OptVal.bool true) ])
      , ("ecmaVersion", OptVal.num 2022)
      , ("sourceType", OptVal.str "module") ]
    rules := mergeMap tsRecommendedRules typescriptExplicitRules }

/-- Layer 3, "config-files", src/eslint.config.mts lines 180-204. -/
def configFiles : Layer :=
  { name := "config-files"
    files := some
      [ "eslint.config.*"
      , "*.config.js"
      , "*.config.ts"
      , "*.config.mjs"
      , "*.config.mts" ]
    ignores := none
    languageOptions := [("globals", OptVal.imported "globals.node")]
    rules :=
      [ ("@typescript-eslint/explicit-function-return-type",
          { severity := "off", options := [] })
      , ("no-console", { severity := "off", options := [] }) ]
  }

/-- Layer 4, "test-files", src/eslint.config.mts lines 213-250.  The globals
blob spreads the external globals.jest object before its explicit keys; the
blob is opaque to the resolver, so the spread is kept as its first entry. -/
def testFiles : Layer :=
  { name := "test-files"
    files := some
      [ "**/*.test.ts"
      , "**/*.test.js"
      , "**/*.spec.ts"
      , "**/*.spec.js"
      , "**/__tests__/**/*" ]
    ignores := none
    languageOptions :=
      [ ("globals", OptVal.obj
          [ ("...globals.jest", OptVal.imported "globals.jest")
          , ("describe", OptVal.str "readonly")
          , ("it", OptVal.str "readonly")
          , ("expect", OptVal.str "readonly")
          , ("beforeEach", OptVal.str "readonly")
          , ("afterEach", OptVal.str "readonly")
          , ("beforeAll", OptVal.str "readonly")
          , ("afterAll", OptVal.str "readonly") ]) ]
    rules :=
      [ ("@typescript-eslint/no-explicit-any",
          { severity := "off", options := [] })
      , ("max-lines-per-function", { severity := "off", options := [] })
      , ("no-console", { severity := "off", options := [] })
      , ("@typescript-eslint/no-floating-promises",
          { severity := "off", options := [] }) ]
  }

/-- Layer 5, "ignored-files", src/eslint.config.mts lines 259-289: the
designated ignore layer, carrying only an exclusion list. -/
def ignoredFiles : Layer :=
  { name := "ignored-files"
    files := none
    ignores := some
      [ "node_modules/**"
      , "dist/**"
      , "build/**"
      , ".next/**"
      , "*.min.js"
      , "*.min.css"
      , "coverage/**"
      , ".nyc_output/**"
      , ".git/**"
      , "tmp/**"
      , ".tmp/**"
      , "*.log"
      , "logs/**" ]
    languageOptions := []
    rules := [] }

/-- The declared layer sequence of src/eslint.config.mts lines 24-290, in
source order, parameterized by the external recommended rule set spread into
the typescript layer. -/
def config (tsRecommendedRules : List (String × RuleSetting)) : List Layer :=
  [ baseJavascriptConfig
  , typescriptConfig tsRecommendedRules
  , configFiles
  , testFiles
  , ignoredFiles ]

/-- The layer sequence with the base layer (layer 1) and the config-files
layer (layer 3) transposed, every other layer kept in place. -/
def configSwapped (tsRecommendedRules : List (String × RuleSetting)) : List Layer :=
  [ configFiles
  , typescriptConfig tsRecommendedRules
  , baseJavascriptConfig
  , testFiles
  , ignoredFiles ]

/-! Association-list lemmas for the per-key overwrite merge. -/

theorem getKey?_append {α : Type u} (k : String) (xs ys : List (String × α)) :
    getKey? k (xs ++ ys) = optOr (getKey? k xs) (getKey? k ys) := by
  induction xs with
  | nil => simp [getKey?, optOr]
  | cons kv xs ih =>
    obtain ⟨k', v⟩ := kv
    by_cases h : k' = k
    · simp [getKey?, h, optOr]
    · simp [getKey?, h, ih]

theorem getKey?_filter {α : Type u} (k : String) (P : String × α → Bool)
    (b : List (String × α)) (h : ∀ kv ∈ b, kv.1 = k → P kv = true) :
    getKey? k (b.filter P) = getKey? k b := by
  induction b with
  | nil => rfl
  | cons kv b ih =>
    obtain ⟨k', v⟩ := kv
    have ih' := ih (fun kv hkv => h kv (List.mem_cons_of_mem _ hkv))
    by_cases hk : k' = k
    · subst hk
      have hP : P (k', v) = true := h (k', v) (List.mem_cons_self _ _) rfl
      simp [List.filter_cons, hP, getKey?]
    · cases hP : P (k', v) with
      | false => simp [List.filter_cons, hP, getKey?, hk, ih']
      | true => simp [List.filter_cons, hP, getKey?, hk, ih']

theorem getKey?_mergeMap {α : Type u} (k : String) (base upd : List (String × α)) :
    getKey? k (mergeMap base upd) = optOr (getKey? k upd) (getKey? k base) := by
  unfold mergeMap
  rw [getKey?_append]
  cases hu : getKey? k upd with
  | some v => rfl
  | none =>
    simp only [optOr]
    apply getKey?_filter
    intro kv _ hk1
    show (getKey? kv.1 upd).isNone = true
    rw [hk1, hu]
    rfl

theorem mem_mergeMap {α : Type u} {kv : String × α} {base upd : List (String × α)}
    (h : kv ∈ mergeMap base upd) : kv ∈ upd ∨ kv ∈ base := by
  rcases List.mem_append.mp h with h1 | h2
  · exact Or.inl h1
  · exact Or.inr (List.mem_filter.mp h2).1

/-! Resolver step lemmas. -/

theorem applyLayer_skip (p : String) (acc : ResolvedConfig) (l : Layer)
    (h : isIgnoreLayer l = true) : applyLayer p acc l = acc := by
  simp [applyLayer, h]

theorem applyLayer_apply (p : String) (acc : ResolvedConfig) (l : Layer)
    (h1 : isIgnoreLayer l = false) (h2 : applicable p l = true) :
    applyLayer p acc l =
      { languageOptions := mergeMap acc.languageOptions l.languageOptions
        rules := mergeMap acc.rules l.rules } := by
  simp [applyLayer, h1, h2]

theorem applicable_testFiles (p : String)
    (h : matchesAny p (testFiles.files.getD []) = true) :
    applicable p testFiles = true := by
  show matchesAny p (testFiles.files.getD []) && !(matchesAny p []) = true
  rw [h]
  rfl

theorem applicable_typescript (ext : List (String × RuleSetting)) (p : String)
    (h : matchesAny p ((typescriptConfig ext).files.getD []) = true) :
    applicable p (typescriptConfig ext) = true := by
  show matchesAny p ((typescriptConfig ext).files.getD []) && !(matchesAny p []) = true
  rw [h]
  rfl

theorem getKey?_applyLayer_miss (p : String) (acc : ResolvedConfig) (l : Layer)
    (k : String) (h : getKey? k l.rules = none) :
    getKey? k (applyLayer p acc l).rules = getKey? k acc.rules := by
  unfold applyLayer
  by_cases h1 : isIgnoreLayer l = true
  · rw [if_pos h1]
  · rw [if_neg h1]
    by_cases h2 : applicable p l = true
    · rw [if_pos h2]
      show getKey? k (mergeMap acc.rules l.rules) = getKey? k acc.rules
      rw [getKey?_mergeMap, h]
      rfl
    · rw [if_neg h2]

theorem ts_rules_valid (ext : List (String × RuleSetting))
    (h : ∀ kv ∈ ext, validSeverity kv.2.severity = true) :
    (typescriptConfig ext).rules.all (fun kv => validSeverity kv.2.severity) = true := by
  apply List.all_eq_true.mpr
  intro kv hkv
  have hkv' : kv ∈ mergeMap ext typescriptExplicitRules := hkv
  rcases mem_mergeMap hkv' with h1 | h2
  · have hx : typescriptExplicitRules.all (fun kv => validSeverity kv.2.severity) = true := by
      decide
    exact List.all_eq_true.mp hx kv h1
  · exact h kv h2

theorem layerValid_ts (ext : List (String × RuleSetting))
    (h : ∀ kv ∈ ext, validSeverity kv.2.severity = true) :
    layerValid (typescriptConfig ext) = true := by
  unfold layerValid
  rw [ts_rules_valid ext h]
  rfl

/-! The claims. -/

/-- Claim C1: every path matched by an exclusion pattern of the designated
ignore layer resolves to the distinct Ignored status immediately, with no
other layer's rules consulted, even when the path also matches another
layer's selector. -/
theorem claim_C1 (ext : List (String × RuleSetting)) (p : String)
    (h : matchesAny p (ignoredFiles.ignores.getD []) = true) :
    resolve p (config ext) = Resolution.ignored := by
  have hig : globallyIgnored p (config ext) = true := by
    unfold globallyIgnored
    exact List.any_eq_true.mpr ⟨ignoredFiles, by simp [config], h⟩
  unfold resolve
  rw [hig]
  rfl

/-- Witness for C1: the path dist/app.ts matches the typescript-config
selector, yet it is matched by the ignore layer's pattern dist/\x2a\x2a and
resolves to Ignored. -/
theorem claim_C1_witness :
    matchesAny "dist/app.ts" ((typescriptConfig []).files.getD []) = true ∧
    resolve "dist/app.ts" (config []) = Resolution.ignored :=
  ⟨by decide, claim_C1 [] "dist/app.ts" (by decide)⟩

/-- Claim C2: layer order, not selector specificity, decides conflicts.  For
the path eslint.config.mts the later config-files layer resolves no-console
to off over the base layer's warn; transposing the two layers in the sequence
resolves it to warn instead. -/
theorem claim_C2 (ext : List (String × RuleSetting)) :
    getRule (resolve "eslint.config.mts" (config ext)) "no-console" =
      some { severity := "off", options := [] } ∧
    getRule (resolve "eslint.config.mts" (configSwapped ext)) "no-console" =
      some { severity := "warn", options := [] } :=
  ⟨rfl, rfl⟩

/-- Claim C3: a later layer's explicit off fully overrides an earlier
layer's non-off setting, and absence of the key leaves the earlier setting in
force: on every non-ignored path matching the test-files selector the
resolved no-explicit-any rule is off, while on src/foo.ts it stays error. -/
theorem claim_C3 (ext : List (String × RuleSetting)) (p : String)
    (hsel : matchesAny p (testFiles.files.getD []) = true)
    (hig : globallyIgnored p (config ext) = false) :
    getRule (resolve p (config ext)) "@typescript-eslint/no-explicit-any" =
      some { severity := "off", options := [] } ∧
    getRule (resolve "src/foo.ts" (config ext)) "@typescript-eslint/no-explicit-any" =
      some { severity := "error", options := [] } := by
  refine ⟨?_, rfl⟩
  have happ : applicable p testFiles = true := applicable_testFiles p hsel
  have e1 : resolve p (config ext) =
      Resolution.resolved
        (List.foldl (applyLayer p) { languageOptions := [], rules := [] }
          (config ext)) := by
    unfold resolve
    rw [hig]
    rfl
  rw [e1]
  simp only [config, List.foldl_cons, List.foldl_nil]
  rw [applyLayer_skip p _ ignoredFiles rfl]
  rw [applyLayer_apply p _ testFiles rfl happ]
  show getKey? "@typescript-eslint/no-explicit-any"
      (mergeMap _ testFiles.rules) = some { severity := "off", options := [] }
  rw [getKey?_mergeMap]
  rfl

/-- Witness for C3: src/foo.test.ts matches the test-files selector, is not
globally ignored, and resolves no-explicit-any to off. -/
theorem claim_C3_witness :
    matchesAny "src/foo.test.ts" (testFiles.files.getD []) = true ∧
    getRule (resolve "src/foo.test.ts" (config []))
      "@typescript-eslint/no-explicit-any" =
      some { severity := "off", options := [] } :=
  ⟨by decide, (claim_C3 [] "src/foo.test.ts" (by decide) (by decide)).1⟩

/-- Claim C4: loading the five declared layers succeeds whenever the opaque
external rule set spread into the typescript layer carries recognized
severity tokens: every explicitly written severity token is recognized, every
pattern string is non-empty, and the sequence contains exactly one designated
ignore layer, namely ignored-files. -/
theorem claim_C4 (ext : List (String × RuleSetting))
    (h : ∀ kv ∈ ext, validSeverity kv.2.severity = true) :
    load (config ext) = Except.ok (config ext) ∧
    (config ext).countP isIgnoreLayer = 1 := by
  have hb : isIgnoreLayer baseJavascriptConfig = false := by decide
  have hc : isIgnoreLayer configFiles = false := by decide
  have ht : isIgnoreLayer testFiles = false := by decide
  have hi : isIgnoreLayer ignoredFiles = true := by decide
  have h2 : isIgnoreLayer (typescriptConfig ext) = false := rfl
  have hcnt : (config ext).countP isIgnoreLayer = 1 := by
    simp [config, List.countP_cons, List.countP_nil, hb, hc, ht, hi, h2]
  have hall : (config ext).all layerValid = true := by
    apply List.all_eq_true.mpr
    intro l hl
    simp only [config, List.mem_cons, List.not_mem_nil, or_false] at hl
    rcases hl with rfl | rfl | rfl | rfl | rfl
    · decide
    · exact layerValid_ts ext h
    · decide
    · decide
    · decide
  refine ⟨?_, hcnt⟩
  unfold load
  rw [if_pos ⟨hall, by rw [hcnt]⟩]

/-- Witness for C4: with an empty external rule set, load succeeds on the
declared sequence. -/
theorem claim_C4_witness :
    load (config []) = Except.ok (config []) :=
  (claim_C4 [] (by intro kv hkv; cases hkv)).1

/-- Claim C5: a layer with no selector applies to every non-ignored path and
contributes its rules, while the typescript-config selector applies to
src/app.ts but not to readme.md; on readme.md only the base layer applies and
its no-console setting warn is resolved. -/
theorem claim_C5 (ext : List (String × RuleSetting)) (p : String)
    (_hig : globallyIgnored p (config ext) = false) :
    applicable p baseJavascriptConfig = true ∧
    applicable "src/app.ts" (typescriptConfig ext) = true ∧
    applicable "readme.md" (typescriptConfig ext) = false ∧
    getRule (resolve "readme.md" (config ext)) "no-console" =
      some { severity := "warn", options := [] } :=
  ⟨rfl, rfl, rfl, rfl⟩

/-- Witness for C5: src/app.ts is not globally ignored and the base layer
applies to it. -/
theorem claim_C5_witness :
    globallyIgnored "src/app.ts" (config []) = false ∧
    applicable "src/app.ts" baseJavascriptConfig = true :=
  ⟨by decide, (claim_C5 [] "src/app.ts" (by decide)).1⟩

/-- Claim C6: rule keys absent from all layers matching a path are absent
from the resolved mapping: README.md resolves to exactly the base layer's
fields, and no rule key of the base layer is namespaced by
typescript-eslint or named max-lines-per-function. -/
theorem claim_C6 (ext : List (String × RuleSetting)) :
    resolve "README.md" (config ext) =
      Resolution.resolved
        { languageOptions := baseJavascriptConfig.languageOptions
          rules := baseJavascriptConfig.rules } ∧
    baseJavascriptConfig.rules.all
      (fun kv => !(kv.1.startsWith "@typescript-eslint/") &&
                 !(kv.1 == "max-lines-per-function")) = true :=
  ⟨rfl, by decide⟩

/-- Claim C7: merging an applicable layer is per-key.  On eslint.config.mts
the config-files layer leaves the typescript layer's no-floating-promises
setting error untouched, overwrites the globals languageOptions key with its
own value, and leaves the parser key from the typescript layer intact. -/
theorem claim_C7 (ext : List (String × RuleSetting)) :
    getRule (resolve "eslint.config.mts" (config ext))
      "@typescript-eslint/no-floating-promises" =
      some { severity := "error", options := [] } ∧
    getLangOption (resolve "eslint.config.mts" (config ext)) "globals" =
      getKey? "globals" configFiles.languageOptions ∧
    getLangOption (resolve "eslint.config.mts" (config ext)) "globals" =
      some (OptVal.imported "globals.node") ∧
    getLangOption (resolve "eslint.config.mts" (config ext)) "parser" =
      some (OptVal.imported "tsParser") :=
  ⟨rfl, rfl, rfl, rfl⟩

/-- Claim C8: resolve is deterministic and side-effect free — two calls
against the same loaded snapshot return identical results and the layer
sequence is unchanged after both calls. -/
theorem claim_C8 (ext : List (String × RuleSetting)) (p : String) :
    (resolveTwice p (config ext)).1 = (resolveTwice p (config ext)).2.1 ∧
    (resolveTwice p (config ext)).2.2 = config ext :=
  ⟨rfl, rfl⟩

/-- Claim C9: the config-files selector patterns contain no globstar, so the
layer applies to root-level configuration files only: it applies to
vite.config.ts but not to packages/app/vite.config.ts; likewise the ignore
patterns for minified and log files do not match inside subdirectories. -/
theorem claim_C9 :
    (configFiles.files.getD []).all
      (fun pat => !(hasGlobstar pat.data)) = true ∧
    applicable "vite.config.ts" configFiles = true ∧
    applicable "packages/app/vite.config.ts" configFiles = false ∧
    ("*.min.js" ∈ ignoredFiles.ignores.getD [] ∧
      patternMatches "*.min.js" "assets/app.min.js" = false) ∧
    ("*.log" ∈ ignoredFiles.ignores.getD [] ∧
      patternMatches "*.log" "logs/app.log" = false) :=
  ⟨by decide, rfl, rfl, ⟨by decide, rfl⟩, ⟨by decide, rfl⟩⟩

/-- Claim C10: on every non-ignored path matched by the typescript-config
selector, the resolved no-unused-vars rule is off and the typescript-aware
variant is error with options, carrying the same ignore-pattern options as
the base layer's JavaScript rule. -/
theorem claim_C10 (ext : List (String × RuleSetting)) (p : String)
    (hsel : matchesAny p ((typescriptConfig ext).files.getD []) = true)
    (hig : globallyIgnored p (config ext) = false) :
    getRule (resolve p (config ext)) "no-unused-vars" =
      some { severity := "off", options := [] } ∧
    getRule (resolve p (config ext)) "@typescript-eslint/no-unused-vars" =
      some { severity := "error"
             options := [OptVal.obj
               [ ("argsIgnorePattern", OptVal.str "^_")
               , ("varsIgnorePattern", OptVal.str "^_") ]] } ∧
    (getRule (resolve p (config ext))
        "@typescript-eslint/no-unused-vars").map (fun r => r.options) =
      (getKey? "no-unused-vars" baseJavascriptConfig.rules).map (fun r => r.options) := by
  have happ : applicable p (typescriptConfig ext) = true :=
    applicable_typescript ext p hsel
  have e1 : resolve p (config ext) =
      Resolution.resolved
        (List.foldl (applyLayer p) { languageOptions := [], rules := [] }
          (config ext)) := by
    unfold resolve
    rw [hig]
    rfl
  have key : ∀ k v, getKey? k typescriptExplicitRules = some v →
      getKey? k configFiles.rules = none →
      getKey? k testFiles.rules = none →
      getRule (resolve p (config ext)) k = some v := by
    intro k v hk hcf htf
    rw [e1]
    simp only [getRule, config, List.foldl_cons, List.foldl_nil]
    rw [applyLayer_skip p _ ignoredFiles rfl]
    rw [getKey?_applyLayer_miss p _ testFiles k htf]
    rw [getKey?_applyLayer_miss p _ configFiles k hcf]
    rw [applyLayer_apply p _ (typescriptConfig ext) rfl happ]
    show getKey? k (mergeMap _ (mergeMap ext typescriptExplicitRules)) = some v
    rw [getKey?_mergeMap, getKey?_mergeMap, hk]
    rfl
  have hA := key "no-unused-vars" { severity := "off", options := [] } rfl rfl rfl
  have hB := key "@typescript-eslint/no-unused-vars"
    { severity := "error"
      options := [OptVal.obj
        [ ("argsIgnorePattern", OptVal.str "^_")
        , ("varsIgnorePattern", OptVal.str "^_") ]] } rfl rfl rfl
  refine ⟨hA, hB, ?_⟩
  rw [hB]
  rfl

/-- Witness for C10: src/app.ts matches the typescript-config selector, is
not globally ignored, and resolves no-unused-vars to off. -/
theorem claim_C10_witness :
    matchesAny "src/app.ts" ((typescriptConfig []).files.getD []) = true ∧
    getRule (resolve "src/app.ts" (config [])) "no-unused-vars" =
      some { severity := "off", options := [] } :=
  ⟨by decide, (claim_C10 [] "src/app.ts" (by decide) (by decide)).1⟩

end EslintLayers
